import Mathlib

/-!
Verification of the event normalization and deduplication engine of the
kanto-fab-event-ical batch worker (src/batch/src/index.ts), shallowly
embedded in Lean.  JavaScript strings are modelled as lists of characters,
`Date` values as their millisecond timestamps (`Int`), and floating-point
ratios as rationals.
-/

namespace KantoFab

/-- JS strings are modelled as lists of characters. -/
abbrev Str := List Char

/-- Shorthand turning a Lean string literal into the model type. -/
def str (s : String) : Str := s.toList

/-- Model of `String.prototype.toLowerCase` (all source strings are ASCII or
Japanese, where `Char.toLower` agrees with the JS behaviour). -/
def toLowerStr (s : Str) : Str := s.map Char.toLower

/-- Model of `hay.includes(needle)`: substring containment. -/
def includesStr (hay needle : Str) : Bool :=
  match hay with
  | [] => needle.isEmpty
  | _ :: t => needle.isPrefixOf hay || includesStr t needle

/-- The `FaBEvent` record of src/batch/src/index.ts (lines 4-11);
`startDatetime` is the JS `Date` as milliseconds since the epoch. -/
structure FaBEvent where
  title : Str
  eventType : Str
  startDatetime : Int
  location : Str
  format : Str
  details : Str
deriving DecidableEq, Repr

/-- `JST_OFFSET = 9 * 60` minutes (line 18). -/
def JST_OFFSET : Int := 9 * 60

/-- Milliseconds in a day, as used by the `24 * 60 * 60 * 1000` literals. -/
def DAY_MS : Int := 24 * 60 * 60 * 1000

/-- Unit-cost edit distance: the function computed by the dynamic-programming
matrix of `calculateStringSimilarity` (lines 487-511): `matrix[i][0] = i`,
`matrix[0][j] = j`, and `matrix[i][j]` is `matrix[i-1][j-1]` when the two
characters match and otherwise `1 + min(deletion, insertion, substitution)`. -/
def levDist : Str → Str → Nat
  | [], ys => ys.length
  | _ :: xs, [] => xs.length + 1
  | x :: xs, y :: ys =>
    if x = y then levDist xs ys
    else min (levDist xs (y :: ys) + 1) (min (levDist (x :: xs) ys + 1) (levDist xs ys + 1))
termination_by a b => a.length + b.length

/-- `calculateStringSimilarity` (lines 482-515). -/
def calculateStringSimilarity (str1 str2 : Str) : ℚ :=
  if str1 = str2 then 1
  else if str1.length = 0 ∨ str2.length = 0 then 0
  else 1 - (levDist str1 str2 : ℚ) / (max str1.length str2.length : ℚ)

/-- `detectEventType` (lines 185-210). -/
def detectEventType (title : Str) : Str :=
  let titleLower := toLowerStr title
  if includesStr titleLower (str "project blue") || includesStr titleLower (str "pb") then
    str "Project Blue"
  else if includesStr titleLower (str "cc") || includesStr titleLower (str "classic") then
    str "Classic Constructed"
  else if includesStr titleLower (str "blitz") || includesStr titleLower (str "ブリッツ") then
    str "Blitz"
  else if includesStr titleLower (str "living legend") || includesStr titleLower (str "ll") then
    str "Living Legend"
  else
    str "External Event"

/-- The `nonGameKeywords` list of `isDuplicateEvent` (line 412). -/
def nonGameKeywords : List Str := [str "定休日", str "休み", str "休業", str "closed"]

/-- The `isNonGameEvent` predicate of `isDuplicateEvent` (lines 413-417). -/
def isNonGameEvent (event : FaBEvent) : Bool :=
  nonGameKeywords.any fun keyword =>
    includesStr (toLowerStr event.title) keyword ||
    includesStr (toLowerStr event.format) keyword

/-- The `isSameVenue` check of `isDuplicateEvent` (lines 437-448): either both
lowercased locations contain the same venue token, or both lowercased titles
contain the same `"@"`-prefixed venue token. -/
def isSameVenue (event1 event2 : FaBEvent) : Bool :=
  let location1 := toLowerStr event1.location
  let location2 := toLowerStr event2.location
  let title1 := toLowerStr event1.title
  let title2 := toLowerStr event2.title
  (includesStr location1 (str "fable") && includesStr location2 (str "fable")) ||
  (includesStr location1 (str "tokyo fab") && includesStr location2 (str "tokyo fab")) ||
  (includesStr location1 (str "cardon") && includesStr location2 (str "cardon")) ||
  (includesStr location1 (str "amenity dream") && includesStr location2 (str "amenity dream")) ||
  (includesStr title1 (str "@fable") && includesStr title2 (str "@fable")) ||
  (includesStr title1 (str "@tokyo fab") && includesStr title2 (str "@tokyo fab")) ||
  (includesStr title1 (str "@cardon") && includesStr title2 (str "@cardon")) ||
  (includesStr title1 (str "@amenity dream") && includesStr title2 (str "@amenity dream"))

/-- The `isSameFormat` check of `isDuplicateEvent` (lines 459-462). -/
def isSameFormat (event1 event2 : FaBEvent) : Bool :=
  decide (toLowerStr event1.format = toLowerStr event2.format) ||
  decide (toLowerStr event1.eventType = toLowerStr event2.eventType)

/-- The `commonKeywords` list of `isDuplicateEvent` (line 469). -/
def commonKeywords : List Str :=
  [str "learn to play", str "armory", str "blitz", str "classic constructed",
   str "pro quest", str "draft", str "on demand", str "cc", str "ll", str "pb"]

/-- The `hasCommonKeyword` check of `isDuplicateEvent` (lines 470-473). -/
def hasCommonKeyword (event1 event2 : FaBEvent) : Bool :=
  commonKeywords.any fun keyword =>
    (includesStr (toLowerStr event1.title) keyword ||
     includesStr (toLowerStr event1.format) keyword) &&
    (includesStr (toLowerStr event2.title) keyword ||
     includesStr (toLowerStr event2.format) keyword)

/-- `isDuplicateEvent` (lines 410-480). -/
def isDuplicateEvent (event1 event2 : FaBEvent) : Bool :=
  if isNonGameEvent event1 || isNonGameEvent event2 then false
  else if 30 * 60 * 1000 < (event1.startDatetime - event2.startDatetime).natAbs then false
  else if !(isSameVenue event1 event2) then false
  else if !(isSameFormat event1 event2) then false
  else
    hasCommonKeyword event1 event2 ||
    decide ((1 : ℚ)/2 < calculateStringSimilarity (toLowerStr event1.title) (toLowerStr event2.title)) ||
    decide ((1 : ℚ)/2 < calculateStringSimilarity (toLowerStr event1.format) (toLowerStr event2.format))

/-- `removeDuplicateExternalEvents` (lines 362-375): keep a running list of
unique events, dropping any event that duplicates an already-kept one. -/
def removeDuplicateExternalEvents (events : List FaBEvent) : List FaBEvent :=
  events.foldl
    (fun uniqueEvents event =>
      if uniqueEvents.any fun existing => isDuplicateEvent event existing then uniqueEvents
      else uniqueEvents ++ [event])
    []

/-- The external-event time-window filter of `removeDuplicateEvents`
(lines 379-385): keep events between `now - 30` days and `now + 180` days. -/
def filterRecentExternal (now : Int) (externalEvents : List FaBEvent) : List FaBEvent :=
  externalEvents.filter fun e =>
    now - 30 * DAY_MS ≤ e.startDatetime && e.startDatetime ≤ now + 180 * DAY_MS

/-- `removeDuplicateEvents` (lines 377-408): window-filter the external
events, keep all of them, then append each official event that matches no
filtered external event.  `now` (`new Date()` in the source) is a parameter. -/
def removeDuplicateEvents (now : Int) (officialEvents externalEvents : List FaBEvent) :
    List FaBEvent :=
  let recentExternalEvents := filterRecentExternal now externalEvents
  officialEvents.foldl
    (fun uniqueEvents officialEvent =>
      if recentExternalEvents.any fun externalEvent =>
          isDuplicateEvent officialEvent externalEvent then uniqueEvents
      else uniqueEvents ++ [officialEvent])
    recentExternalEvents

/-- The recurring-event expansion loop of `parseICalEvents` (lines 246-290).
The expander's occurrence stream is modelled as the list of `toJSDate()`
millisecond values it would produce (`[]` once exhausted); `count` is the
loop counter.  Each iteration requires `count < 50` and the (uncorrected)
occurrence to be at most `now + 180` days; the Cloudflare correction adds
`JST_OFFSET` minutes, and only corrected occurrences `≥ now` are emitted,
but `count` advances on every iteration. -/
def expandRecurring (now : Int) (isCloudflare : Bool) : List Int → Nat → List Int
  | [], _ => []
  | next :: rest, count =>
    if count < 50 ∧ next ≤ now + 180 * DAY_MS then
      let occurrenceDate := if isCloudflare then next + JST_OFFSET * 60000 else next
      (if now ≤ occurrenceDate then [occurrenceDate] else []) ++
        expandRecurring now isCloudflare rest (count + 1)
    else []

/-- One VEVENT as seen by `parseICalEvents` after field extraction
(lines 223-231).  `recurrence` distinguishes the three code paths:
`none` = not recurring; `some none` = recurring but `RecurExpansion`
throws (the catch block of lines 291-318); `some (some occs)` = recurring
with occurrence stream `occs`. -/
structure VEvent where
  summary : Str
  location : Str
  description : Str
  startDate : Option Int
  recurrence : Option (Option (List Int))
deriving Repr

/-- The `excludeKeywords` list of `parseICalEvents` (line 234). -/
def excludeKeywords : List Str := [str "grand archive", str "定休日"]

/-- The source-name classification repeated at lines 270-275, 294-300 and
321-327: substring match on the feed URL. -/
def sourceNameOf (source : Str) : Str :=
  if includesStr source (str "fable.fabtcg") then str "Fable"
  else if includesStr source (str "tokyofab.info") then str "Tokyo FAB"
  else str "External"

/-- Construction of one emitted `FaBEvent` from a VEVENT's fields and a
start instant (lines 280-287, 310-317 and 337-344, which are identical). -/
def mkFeedEvent (summary location description source : Str) (startDatetime : Int) :
    FaBEvent :=
  let sourceName := sourceNameOf source
  let eventType := detectEventType summary
  { title := summary ++ str "@" ++ sourceName
    eventType := eventType
    startDatetime := startDatetime
    location := location
    format := if eventType = str "External Event" then str "External" else eventType
    details := description }

/-- Processing of one VEVENT inside the loop of `parseICalEvents`
(lines 223-349): exclusion-keyword check, the `startDate && summary` guard
(an empty summary is falsy in JS), then the recurring / fallback / single
paths.  The fallback and single paths apply the Cloudflare correction to the
anchor start instant. -/
def processVevent (now : Int) (isCloudflare : Bool) (source : Str) (v : VEvent) :
    List FaBEvent :=
  let shouldExclude := excludeKeywords.any fun keyword =>
    includesStr (toLowerStr v.summary) keyword ||
    includesStr (toLowerStr v.description) keyword
  if shouldExclude then []
  else
    match v.startDate with
    | none => []
    | some startDate =>
      if v.summary.isEmpty then []
      else
        match v.recurrence with
        | some (some occs) =>
          (expandRecurring now isCloudflare occs 0).map
            (mkFeedEvent v.summary v.location v.description source)
        | some none =>
          let adjustedStartDate :=
            if isCloudflare then startDate + JST_OFFSET * 60000 else startDate
          [mkFeedEvent v.summary v.location v.description source adjustedStartDate]
        | none =>
          let adjustedStartDate :=
            if isCloudflare then startDate + JST_OFFSET * 60000 else startDate
          [mkFeedEvent v.summary v.location v.description source adjustedStartDate]

/-- `parseICalEvents` after field extraction (lines 212-360): process each
VEVENT in order (errors on one VEVENT are caught and skip only that VEVENT),
then intra-feed deduplication. -/
def parseICalEvents (now : Int) (isCloudflare : Bool) (source : Str)
    (vevents : List VEvent) : List FaBEvent :=
  removeDuplicateExternalEvents
    (vevents.flatMap (processVevent now isCloudflare source))

/-- The distance filter of `scrapeEventFinder` (lines 106-115):
`event.distance || 0` (absent and `0` both give `0`),
`event.distance_unit || 'km'` (absent and the empty string both give
`'km'`), miles converted at `1.60934`, rejected when the km value
exceeds 50. -/
def distancePassesFilter (distance : Option ℚ) (distanceUnit : Option Str) : Bool :=
  let d : ℚ := match distance with
    | none => 0
    | some x => x
  let u : Str := match distanceUnit with
    | none => str "km"
    | some s => if s.isEmpty then str "km" else s
  let distanceInKm := if u = str "km" then d else d * (160934 / 100000 : ℚ)
  decide (distanceInKm ≤ 50)

/-- Modelled from the spec (§4.4 gate 3), for comparison with the source's
`isSameVenue`: "both events' lowercased `location` (or, if empty, `title`)
must each contain one of a fixed recognized-venue token set
`{"fable","tokyo fab","cardon","amenity dream"}`, and both must contain the
*same* token". -/
def specVenueGate (event1 event2 : FaBEvent) : Bool :=
  let venueTokens := [str "fable", str "tokyo fab", str "cardon", str "amenity dream"]
  let field1 := toLowerStr (if event1.location.isEmpty then event1.title else event1.location)
  let field2 := toLowerStr (if event2.location.isEmpty then event2.title else event2.location)
  venueTokens.any fun token => includesStr field1 token && includesStr field2 token

/-- Duplicate pair whose nonempty locations contain no venue token: the venue
gate matches through the "@"-prefixed title tokens. -/
def crossVenueEventA : FaBEvent :=
  { title := str "blitz@fable", eventType := str "Blitz", startDatetime := 0,
    location := str "shinagawa tokyo", format := str "blitz", details := [] }

/-- Companion to `crossVenueEventA` at a different token-free location. -/
def crossVenueEventB : FaBEvent :=
  { title := str "blitz night@fable", eventType := str "Blitz", startDatetime := 0,
    location := str "meguro city", format := str "blitz", details := [] }

/-- The venue gate restated as one pass over the venue-token list: both
lowercased locations contain the token, or both lowercased titles contain the
"@"-prefixed token. -/
def venueTokenGate (e1 e2 : FaBEvent) : Bool :=
  [str "fable", str "tokyo fab", str "cardon", str "amenity dream"].any fun t =>
    (includesStr (toLowerStr e1.location) t && includesStr (toLowerStr e2.location) t)
    || (includesStr (toLowerStr e1.title) (str "@" ++ t)
        && includesStr (toLowerStr e2.title) (str "@" ++ t))

/-- A simple in-window official event used by concrete witnesses. -/
def sampleOfficialEvent : FaBEvent :=
  { title := str "a@cardon", eventType := str "Armory", startDatetime := 0,
    location := str "cardon", format := str "armory", details := [] }

/-- The out-of-window official event used in the C3 and C6 counterexamples:
its start instant is about 31.7 years before `now = 0`. -/
def oldOfficialEvent : FaBEvent :=
  { title := str "old armory@cardon", eventType := str "Armory",
    startDatetime := -1000000000000, location := str "cardon",
    format := str "armory", details := [] }

/-- Same-feed events passing the non-game, time-proximity and venue gates and
sharing the keyword "blitz", but with different formats and eventTypes. -/
def intraFeedEventA : FaBEvent :=
  { title := str "blitz night@fable", eventType := str "Blitz",
    startDatetime := 0, location := str "fable tokyo",
    format := str "blitz", details := [] }

/-- Companion to `intraFeedEventA` with a different format and eventType. -/
def intraFeedEventB : FaBEvent :=
  { title := str "blitz special@fable", eventType := str "Draft",
    startDatetime := 0, location := str "fable tokyo",
    format := str "draft", details := [] }

theorem levDist_self (a : Str) : levDist a a = 0 := by
  induction a with
  | nil => simp [levDist]
  | cons x xs ih => simp [levDist, ih]

theorem levDist_nil_right (a : Str) : levDist a [] = a.length := by
  cases a <;> simp [levDist]

theorem levDist_le_max (a b : Str) : levDist a b ≤ max a.length b.length := by
  induction a, b using levDist.induct with
  | case1 ys => simp [levDist]
  | case2 x xs => simp [levDist]
  | case3 xs y ys ih =>
    simp only [levDist, if_true, eq_self_iff_true, List.length_cons]
    omega
  | case4 x xs y ys h ih1 ih2 ih3 =>
    simp only [levDist, if_neg h, List.length_cons] at *
    omega

theorem levDist_comm (a b : Str) : levDist a b = levDist b a := by
  induction a, b using levDist.induct with
  | case1 ys => cases ys <;> simp [levDist]
  | case2 x xs => simp [levDist]
  | case3 xs y ys ih =>
    simp [levDist, ih]
  | case4 x xs y ys h ih1 ih2 ih3 =>
    have h' : ¬ y = x := fun hh => h hh.symm
    simp only [levDist, if_neg h, if_neg h'] at *
    omega

theorem similarity_eq_formula (a b : Str) :
    calculateStringSimilarity a b
      = 1 - (levDist a b : ℚ) / (max a.length b.length : ℚ) := by
  unfold calculateStringSimilarity
  split
  · next h =>
    subst h
    rw [levDist_self]
    simp
  · next hne =>
    split
    · next hempty =>
      rcases hempty with h0 | h0
      · have ha : a = [] := List.length_eq_zero.mp h0
        subst ha
        have hb : b.length ≠ 0 := by
          intro hh
          exact hne (by rw [List.length_eq_zero.mp hh])
        have hblen : (b.length : ℚ) ≠ 0 := by exact_mod_cast hb
        have hlev : levDist [] b = b.length := by simp [levDist]
        simp [hlev, div_self hblen]
      · have hb : b = [] := List.length_eq_zero.mp h0
        subst hb
        have ha : a.length ≠ 0 := by
          intro hh
          exact hne (by rw [List.length_eq_zero.mp hh])
        have halen : (a.length : ℚ) ≠ 0 := by exact_mod_cast ha
        simp [levDist_nil_right, div_self halen]
    · rfl

theorem similarity_nonneg_le_one (a b : Str) :
    0 ≤ calculateStringSimilarity a b ∧ calculateStringSimilarity a b ≤ 1 := by
  rw [similarity_eq_formula]
  rcases Nat.eq_zero_or_pos (max a.length b.length) with hm | hm
  · have ha : a = [] := List.length_eq_zero.mp (by omega)
    have hb : b = [] := List.length_eq_zero.mp (by omega)
    subst ha; subst hb
    simp [levDist]
  · have hmq : 0 < (max a.length b.length : ℚ) := by exact_mod_cast hm
    have hlev0 : (0 : ℚ) ≤ (levDist a b : ℚ) := by positivity
    have hlevle : (levDist a b : ℚ) ≤ (max a.length b.length : ℚ) := by
      exact_mod_cast levDist_le_max a b
    have h1 : (levDist a b : ℚ) / (max a.length b.length : ℚ) ≤ 1 :=
      (div_le_one hmq).mpr hlevle
    have h2 : 0 ≤ (levDist a b : ℚ) / (max a.length b.length : ℚ) :=
      div_nonneg hlev0 hmq.le
    constructor <;> linarith

theorem similarity_empty (a b : Str)
    (h : (a = [] ∧ b ≠ []) ∨ (a ≠ [] ∧ b = [])) :
    calculateStringSimilarity a b = 0 := by
  have hne : a ≠ b := by
    rcases h with ⟨h1, h2⟩ | ⟨h1, h2⟩
    · subst h1; exact fun hh => h2 hh.symm
    · subst h2; exact h1
  unfold calculateStringSimilarity
  rw [if_neg hne, if_pos]
  rcases h with ⟨h1, _⟩ | ⟨_, h2⟩
  · left; simp [h1]
  · right; simp [h2]

/-- C7: `calculateStringSimilarity` equals `1 - editDistance / max(len(a), len(b))`
for the unit-cost Levenshtein distance `levDist`, its value lies in `[0,1]`,
it is `1` on identical strings, and it is `0` whenever exactly one argument
is empty. -/
theorem calculateStringSimilarity_correct (a b : Str) :
    calculateStringSimilarity a b
      = 1 - (levDist a b : ℚ) / (max a.length b.length : ℚ)
    ∧ 0 ≤ calculateStringSimilarity a b
    ∧ calculateStringSimilarity a b ≤ 1
    ∧ calculateStringSimilarity a a = 1
    ∧ (((a = [] ∧ b ≠ []) ∨ (a ≠ [] ∧ b = [])) → calculateStringSimilarity a b = 0) :=
  ⟨similarity_eq_formula a b, (similarity_nonneg_le_one a b).1,
   (similarity_nonneg_le_one a b).2, by simp [calculateStringSimilarity],
   similarity_empty a b⟩

/-- Witness for C7 at the concrete pair `("", "x")`. -/
theorem calculateStringSimilarity_correct_witness :
    (([] : Str) = [] ∧ str "x" ≠ ([] : Str))
      ∧ calculateStringSimilarity [] (str "x") = 0 :=
  ⟨⟨rfl, by decide⟩,
   (calculateStringSimilarity_correct [] (str "x")).2.2.2.2 (Or.inl ⟨rfl, by decide⟩)⟩

theorem calculateStringSimilarity_comm (a b : Str) :
    calculateStringSimilarity a b = calculateStringSimilarity b a := by
  rw [similarity_eq_formula, similarity_eq_formula, levDist_comm]
  rw [max_comm]

theorem isSameVenue_comm (e1 e2 : FaBEvent) : isSameVenue e1 e2 = isSameVenue e2 e1 := by
  simp only [isSameVenue, Bool.and_comm]

theorem isSameFormat_comm (e1 e2 : FaBEvent) : isSameFormat e1 e2 = isSameFormat e2 e1 := by
  unfold isSameFormat
  rw [show decide (toLowerStr e1.format = toLowerStr e2.format)
        = decide (toLowerStr e2.format = toLowerStr e1.format) from
      decide_eq_decide.mpr eq_comm,
    show decide (toLowerStr e1.eventType = toLowerStr e2.eventType)
        = decide (toLowerStr e2.eventType = toLowerStr e1.eventType) from
      decide_eq_decide.mpr eq_comm]

theorem hasCommonKeyword_comm (e1 e2 : FaBEvent) :
    hasCommonKeyword e1 e2 = hasCommonKeyword e2 e1 := by
  simp only [hasCommonKeyword, Bool.and_comm]

theorem natAbs_sub_swap (a b : Int) : (a - b).natAbs = (b - a).natAbs := by omega

/-- C8: `isDuplicateEvent` is symmetric in its two arguments. -/
theorem isDuplicateEvent_comm (e1 e2 : FaBEvent) :
    isDuplicateEvent e1 e2 = isDuplicateEvent e2 e1 := by
  unfold isDuplicateEvent
  rw [Bool.or_comm (isNonGameEvent e2) (isNonGameEvent e1),
    natAbs_sub_swap e2.startDatetime e1.startDatetime,
    isSameVenue_comm e2 e1, isSameFormat_comm e2 e1, hasCommonKeyword_comm e2 e1,
    calculateStringSimilarity_comm (toLowerStr e2.title) (toLowerStr e1.title),
    calculateStringSimilarity_comm (toLowerStr e2.format) (toLowerStr e1.format)]

theorem mergeFold_eq (recent : List FaBEvent) (official acc : List FaBEvent) :
    official.foldl
      (fun uniqueEvents officialEvent =>
        if recent.any fun externalEvent => isDuplicateEvent officialEvent externalEvent
        then uniqueEvents else uniqueEvents ++ [officialEvent]) acc
    = acc ++ official.filter
        (fun officialEvent =>
          !(recent.any fun externalEvent => isDuplicateEvent officialEvent externalEvent)) := by
  induction official generalizing acc with
  | nil => simp
  | cons o rest ih =>
    simp only [List.foldl_cons, List.filter_cons]
    by_cases h : (recent.any fun e => isDuplicateEvent o e) = true
    · rw [if_pos h, ih]
      simp [h]
    · rw [if_neg h, ih]
      simp only [Bool.not_eq_true] at h
      simp [h]

theorem removeDuplicateEvents_eq (now : Int) (officialEvents externalEvents : List FaBEvent) :
    removeDuplicateEvents now officialEvents externalEvents
      = filterRecentExternal now externalEvents
        ++ officialEvents.filter
            (fun o => !((filterRecentExternal now externalEvents).any
                fun e => isDuplicateEvent o e)) :=
  mergeFold_eq _ _ _

/-- C1: the merged output is exactly the window-filtered external events
followed by the official events that match no filtered external event; in
particular every filtered external event survives, and an official event
with no duplicate match survives. -/
theorem removeDuplicateEvents_merge_policy (now : Int)
    (officialEvents externalEvents : List FaBEvent) :
    removeDuplicateEvents now officialEvents externalEvents
      = filterRecentExternal now externalEvents
        ++ officialEvents.filter
            (fun o => !((filterRecentExternal now externalEvents).any
                fun e => isDuplicateEvent o e))
    ∧ (∀ e ∈ filterRecentExternal now externalEvents,
        e ∈ removeDuplicateEvents now officialEvents externalEvents)
    ∧ (∀ o ∈ officialEvents,
        ((filterRecentExternal now externalEvents).any fun e => isDuplicateEvent o e) = false
          → o ∈ removeDuplicateEvents now officialEvents externalEvents) := by
  refine ⟨removeDuplicateEvents_eq now officialEvents externalEvents, ?_, ?_⟩
  · intro e he
    rw [removeDuplicateEvents_eq]
    exact List.mem_append.mpr (Or.inl he)
  · intro o ho hno
    rw [removeDuplicateEvents_eq]
    refine List.mem_append.mpr (Or.inr (List.mem_filter.mpr ⟨ho, ?_⟩))
    simp [hno]

/-- Witness for C1 at a concrete input: an official event with no matching
external event survives the merge. -/
theorem removeDuplicateEvents_merge_policy_witness :
    sampleOfficialEvent ∈ removeDuplicateEvents 0 [sampleOfficialEvent] [] :=
  (removeDuplicateEvents_merge_policy 0 [sampleOfficialEvent] []).2.2
    sampleOfficialEvent (by decide) (by decide)

/-- C3 counterexample: with `now = 0` the merged output contains an official
event whose start instant lies before `now - 30` days, so not every surviving
event is inside the window. -/
theorem removeDuplicateEvents_window_cex :
    oldOfficialEvent ∈ removeDuplicateEvents 0 [oldOfficialEvent] []
    ∧ ¬(0 - 30 * DAY_MS ≤ oldOfficialEvent.startDatetime) := by
  constructor <;> decide

theorem mem_removeDuplicateEvents_window (now : Int)
    (officialEvents externalEvents : List FaBEvent) (e : FaBEvent)
    (h : e ∈ removeDuplicateEvents now officialEvents externalEvents) :
    (now - 30 * DAY_MS ≤ e.startDatetime ∧ e.startDatetime ≤ now + 180 * DAY_MS)
    ∨ e ∈ officialEvents := by
  rw [removeDuplicateEvents_eq] at h
  rcases List.mem_append.mp h with h | h
  · left
    have hcond := (List.mem_filter.mp h).2
    simp only [Bool.and_eq_true, decide_eq_true_eq] at hcond
    exact hcond
  · right
    exact List.mem_of_mem_filter h

/-- C3 amended: every event surviving `removeDuplicateEvents` either has its
start instant within `[now - 30 days, now + 180 days]` or is one of the
official (locator-sourced) input events, which are not window-filtered. -/
theorem removeDuplicateEvents_window (now : Int)
    (officialEvents externalEvents : List FaBEvent) (e : FaBEvent)
    (h : e ∈ removeDuplicateEvents now officialEvents externalEvents) :
    (now - 30 * DAY_MS ≤ e.startDatetime ∧ e.startDatetime ≤ now + 180 * DAY_MS)
    ∨ e ∈ officialEvents :=
  mem_removeDuplicateEvents_window now officialEvents externalEvents e h

/-- Witness for the amended C3 theorem at a concrete input. -/
theorem removeDuplicateEvents_window_witness :
    (0 - 30 * DAY_MS ≤ sampleOfficialEvent.startDatetime
      ∧ sampleOfficialEvent.startDatetime ≤ 0 + 180 * DAY_MS)
    ∨ sampleOfficialEvent ∈ [sampleOfficialEvent] :=
  removeDuplicateEvents_window 0 [sampleOfficialEvent] [] sampleOfficialEvent (by decide)

/-- C6 counterexample: merging preferred `P = []` with secondary
`S = [oldOfficialEvent]` returns `[oldOfficialEvent]`, but running merge again
on that output (as preferred, with empty secondary) returns `[]`, a different
set. -/
theorem merge_not_idempotent_cex :
    removeDuplicateEvents 0 [oldOfficialEvent] [] = [oldOfficialEvent]
    ∧ removeDuplicateEvents 0 [] (removeDuplicateEvents 0 [oldOfficialEvent] []) = [] := by
  constructor <;> decide

/-- C6 amended: merge is idempotent whenever every secondary (official) event
lies within the retention window: re-running merge on the output of
`merge(P, S)` as the preferred collection, with empty secondary, returns the
output unchanged. -/
theorem merge_idempotent_of_window (now : Int) (P S : List FaBEvent)
    (h : ∀ e ∈ S, now - 30 * DAY_MS ≤ e.startDatetime
        ∧ e.startDatetime ≤ now + 180 * DAY_MS) :
    removeDuplicateEvents now [] (removeDuplicateEvents now S P)
      = removeDuplicateEvents now S P := by
  have h0 : removeDuplicateEvents now [] (removeDuplicateEvents now S P)
      = filterRecentExternal now (removeDuplicateEvents now S P) := rfl
  rw [h0]
  unfold filterRecentExternal
  rw [List.filter_eq_self]
  intro e he
  rcases mem_removeDuplicateEvents_window now S P e he with hw | hS
  · simp only [Bool.and_eq_true, decide_eq_true_eq]
    exact hw
  · simp only [Bool.and_eq_true, decide_eq_true_eq]
    exact h e hS

/-- Witness for the amended C6 theorem at a concrete input. -/
theorem merge_idempotent_of_window_witness :
    removeDuplicateEvents 0 [] (removeDuplicateEvents 0 [sampleOfficialEvent] [])
      = removeDuplicateEvents 0 [sampleOfficialEvent] [] :=
  merge_idempotent_of_window 0 [] [sampleOfficialEvent] (by decide)

theorem expandRecurring_length (now : Int) (cf : Bool) (occs : List Int) :
    ∀ count, (expandRecurring now cf occs count).length ≤ 50 - count := by
  induction occs with
  | nil => intro count; simp [expandRecurring]
  | cons next rest ih =>
    intro count
    simp only [expandRecurring]
    split
    · next h =>
      have hrec := ih (count + 1)
      simp only [List.length_append]
      split <;> split <;> simp only [List.length_cons, List.length_nil] <;> omega
    · simp

theorem mem_guard_singleton (now z x : Int) (h : x ∈ if now ≤ z then [z] else []) :
    now ≤ x := by
  split at h
  · next hc =>
    rw [List.mem_singleton] at h
    exact h ▸ hc
  · simp at h

theorem expandRecurring_mem (now : Int) (cf : Bool) (occs : List Int) :
    ∀ count x, x ∈ expandRecurring now cf occs count → now ≤ x := by
  induction occs with
  | nil => intro count x hx; simp [expandRecurring] at hx
  | cons next rest ih =>
    intro count x hx
    simp only [expandRecurring] at hx
    split at hx
    · rcases List.mem_append.mp hx with h | h
      · exact mem_guard_singleton now _ x h
      · exact ih _ _ h
    · simp at hx

theorem expandRecurring_stop (now : Int) (cf : Bool) (next : Int) (rest : List Int)
    (count : Nat) (h : 50 ≤ count ∨ now + 180 * DAY_MS < next) :
    expandRecurring now cf (next :: rest) count = [] := by
  simp only [expandRecurring]
  rw [if_neg]
  rintro ⟨h1, h2⟩
  omega

theorem expandRecurring_take (now : Int) (cf : Bool) (occs : List Int) :
    ∀ count, expandRecurring now cf occs count
      = expandRecurring now cf (occs.take (50 - count)) count := by
  induction occs with
  | nil => intro count; simp
  | cons next rest ih =>
    intro count
    by_cases hc : count < 50
    · have hsub : 50 - count = (50 - (count + 1)) + 1 := by omega
      rw [hsub, List.take_succ_cons]
      by_cases hcond : count < 50 ∧ next ≤ now + 180 * DAY_MS
      · simp only [expandRecurring, if_pos hcond]
        rw [ih (count + 1)]
      · simp only [expandRecurring, if_neg hcond]
    · have h50 : 50 - count = 0 := by omega
      rw [h50, List.take_zero, expandRecurring_stop now cf next rest count (Or.inl (by omega))]
      simp [expandRecurring]

/-- C2: the recurrence-expansion loop advances at most 50 steps in total —
every advanced step counts toward the cap of 50 whether emitted or not, so
only the first `50 - count` stream occurrences are ever examined — at most 50
occurrences are emitted, each emitted occurrence has deployment-mode-corrected
start instant `≥ now`, and the loop stops as soon as the cap is reached or the
next (uncorrected) occurrence exceeds `now + 180` days. -/
theorem expandRecurring_spec (now : Int) (isCloudflare : Bool) (occs : List Int) :
    (expandRecurring now isCloudflare occs 0).length ≤ 50
    ∧ (∀ count, ∀ x ∈ expandRecurring now isCloudflare occs count, now ≤ x)
    ∧ (∀ count next rest, 50 ≤ count ∨ now + 180 * DAY_MS < next
        → expandRecurring now isCloudflare (next :: rest) count = [])
    ∧ (∀ count, expandRecurring now isCloudflare occs count
        = expandRecurring now isCloudflare (occs.take (50 - count)) count) :=
  ⟨le_trans (expandRecurring_length now isCloudflare occs 0) (by omega),
   fun count x hx => expandRecurring_mem now isCloudflare occs count x hx,
   fun count next rest h => expandRecurring_stop now isCloudflare next rest count h,
   expandRecurring_take now isCloudflare occs⟩

/-- Witness for C2: a concrete emitted occurrence is `≥ now`, and the loop
stops at the cap. -/
theorem expandRecurring_spec_witness :
    (0 : Int) ≤ 3 ∧ expandRecurring 0 false [5] 50 = [] :=
  ⟨(expandRecurring_spec 0 false [-5, 3]).2.1 0 3 (by decide),
   (expandRecurring_spec 0 false [5]).2.2.1 50 5 [] (Or.inl (by decide))⟩

/-- C9: when recurrence expansion fails (`recurrence = some none`, the catch
block of lines 291-318), the VEVENT contributes exactly one event, at the
anchor start instant with the deployment-mode correction applied; the failure
is contained per VEVENT: the pre-dedup events list is always the concatenation
of every VEVENT's own contribution, so no other VEVENT is affected. -/
theorem recurrence_fallback_spec (now : Int) (isCloudflare : Bool)
    (source summary location description : Str) (anchor : Int)
    (hsum : summary.isEmpty = false)
    (hexcl : (excludeKeywords.any fun keyword =>
        includesStr (toLowerStr summary) keyword ||
        includesStr (toLowerStr description) keyword) = false) :
    processVevent now isCloudflare source
        ⟨summary, location, description, some anchor, some none⟩
      = [mkFeedEvent summary location description source
          (if isCloudflare then anchor + JST_OFFSET * 60000 else anchor)]
    ∧ (∀ vs1 vs2 : List VEvent,
        (vs1 ++ ⟨summary, location, description, some anchor, some none⟩ :: vs2).flatMap
            (processVevent now isCloudflare source)
          = vs1.flatMap (processVevent now isCloudflare source)
            ++ processVevent now isCloudflare source
                ⟨summary, location, description, some anchor, some none⟩
            ++ vs2.flatMap (processVevent now isCloudflare source)) := by
  constructor
  · simp [processVevent, hexcl, hsum]
  · intro vs1 vs2
    simp [List.flatMap_append, List.flatMap_cons, List.append_assoc]

/-- Witness for C9 at a concrete failing VEVENT in cloudflare mode. -/
theorem recurrence_fallback_spec_witness :
    processVevent 0 true (str "fable.fabtcg")
        ⟨str "Weekly Blitz", str "Fable Tokyo", [], some 1000, some none⟩
      = [mkFeedEvent (str "Weekly Blitz") (str "Fable Tokyo") [] (str "fable.fabtcg")
          (if true then 1000 + JST_OFFSET * 60000 else 1000)] :=
  (recurrence_fallback_spec 0 true (str "fable.fabtcg") (str "Weekly Blitz")
    (str "Fable Tokyo") [] 1000 (by decide) (by decide)).1

/-- C10: a structured-API record with absent (or `0`) distance is treated as
being at `0` distance, one with an absent unit is treated as reporting
kilometres, and such records always pass the 50 km filter. -/
theorem distance_default_spec :
    (∀ u : Option Str, distancePassesFilter none u = true)
    ∧ (∀ u : Option Str, distancePassesFilter (some 0) u = true)
    ∧ (∀ d : Option ℚ, distancePassesFilter d none = distancePassesFilter d (some (str "km"))) := by
  refine ⟨?_, ?_, ?_⟩
  · intro u
    rcases u with _ | s <;>
      · simp only [distancePassesFilter]
        split <;> norm_num
  · intro u
    rcases u with _ | s <;>
      · simp only [distancePassesFilter]
        split <;> norm_num
  · intro d
    rfl

theorem isDuplicateEvent_eq_false_of_format (e1 e2 : FaBEvent)
    (hf : toLowerStr e1.format ≠ toLowerStr e2.format)
    (ht : toLowerStr e1.eventType ≠ toLowerStr e2.eventType) :
    isDuplicateEvent e1 e2 = false := by
  have hno : isSameFormat e1 e2 = false := by
    simp [isSameFormat, hf, ht]
  unfold isDuplicateEvent
  rw [hno]
  split
  · rfl
  · split
    · rfl
    · split
      · rfl
      · simp

/-- C4 counterexample: intra-feed dedup does gate on format identity.  This
same-feed pair passes the non-game, time-proximity and venue gates and shares
a common keyword, yet is not a duplicate because the lowercased formats and
eventTypes differ; equalizing only format and eventType makes the very same
pair a duplicate, and intra-feed dedup keeps both original events. -/
theorem intraFeed_format_gate_cex :
    isNonGameEvent intraFeedEventA = false
    ∧ isNonGameEvent intraFeedEventB = false
    ∧ (intraFeedEventA.startDatetime - intraFeedEventB.startDatetime).natAbs ≤ 30 * 60 * 1000
    ∧ isSameVenue intraFeedEventA intraFeedEventB = true
    ∧ hasCommonKeyword intraFeedEventA intraFeedEventB = true
    ∧ isDuplicateEvent intraFeedEventA intraFeedEventB = false
    ∧ isDuplicateEvent intraFeedEventA
        { intraFeedEventB with format := str "blitz", eventType := str "Blitz" } = true
    ∧ removeDuplicateExternalEvents [intraFeedEventA, intraFeedEventB]
        = [intraFeedEventA, intraFeedEventB] := by
  refine ⟨?_, ?_, ?_, ?_, ?_, ?_, ?_, ?_⟩ <;> decide

/-- C4 amended: intra-feed deduplication applies the same `isDuplicateEvent`
predicate as cross-source deduplication, format identity gate included: a
pair whose lowercased formats differ and whose lowercased eventTypes differ
is never a duplicate, and intra-feed dedup keeps both such events. -/
theorem intraFeed_format_gate (e1 e2 : FaBEvent)
    (hf : toLowerStr e1.format ≠ toLowerStr e2.format)
    (ht : toLowerStr e1.eventType ≠ toLowerStr e2.eventType) :
    isDuplicateEvent e1 e2 = false
    ∧ removeDuplicateExternalEvents [e1, e2] = [e1, e2] := by
  have h21 := isDuplicateEvent_eq_false_of_format e2 e1
    (fun h => hf h.symm) (fun h => ht h.symm)
  refine ⟨isDuplicateEvent_eq_false_of_format e1 e2 hf ht, ?_⟩
  simp [removeDuplicateExternalEvents, h21]

/-- Witness for the amended C4 theorem at a concrete pair. -/
theorem intraFeed_format_gate_witness :
    isDuplicateEvent intraFeedEventA intraFeedEventB = false
    ∧ removeDuplicateExternalEvents [intraFeedEventA, intraFeedEventB]
        = [intraFeedEventA, intraFeedEventB] :=
  intraFeed_format_gate intraFeedEventA intraFeedEventB (by decide) (by decide)

theorem isDuplicateEvent_eq_false_of_venue (e1 e2 : FaBEvent)
    (hv : isSameVenue e1 e2 = false) : isDuplicateEvent e1 e2 = false := by
  unfold isDuplicateEvent
  rw [hv]
  split
  · rfl
  · split
    · rfl
    · simp

theorem or_rearrange8 (p1 p2 p3 p4 q1 q2 q3 q4 : Bool) :
    (p1 || p2 || p3 || p4 || q1 || q2 || q3 || q4)
      = ((p1 || q1) || ((p2 || q2) || ((p3 || q3) || (p4 || q4)))) := by
  cases p1 <;> cases p2 <;> cases p3 <;> cases p4 <;>
    cases q1 <;> cases q2 <;> cases q3 <;> cases q4 <;> rfl

/-- C5 counterexample: `isDuplicateEvent` classifies this pair as duplicates
through the title check of the venue gate although both locations are
nonempty and contain no venue token, so the spec's location-first venue
condition (`specVenueGate`) fails on a matched pair. -/
theorem venue_gate_cex :
    isDuplicateEvent crossVenueEventA crossVenueEventB = true
    ∧ specVenueGate crossVenueEventA crossVenueEventB = false
    ∧ crossVenueEventA.location ≠ []
    ∧ crossVenueEventB.location ≠ [] := by
  refine ⟨?_, ?_, ?_, ?_⟩ <;> decide

/-- C5 amended: the venue gate of `isDuplicateEvent` requires that both
lowercased locations contain the same recognized venue token, or that both
lowercased titles contain the same `"@"`-prefixed venue token — the title
check applies regardless of whether the locations are empty
(`venueTokenGate` is that per-token condition).  Every duplicate pair passes
this gate, and failing it forces non-duplicate regardless of the other
gates. -/
theorem venue_gate_amended (e1 e2 : FaBEvent) :
    (isDuplicateEvent e1 e2 = true → isSameVenue e1 e2 = true)
    ∧ (isSameVenue e1 e2 = false → isDuplicateEvent e1 e2 = false)
    ∧ isSameVenue e1 e2 = venueTokenGate e1 e2 := by
  refine ⟨?_, isDuplicateEvent_eq_false_of_venue e1 e2, ?_⟩
  · intro h
    by_contra hv
    rw [Bool.not_eq_true] at hv
    rw [isDuplicateEvent_eq_false_of_venue e1 e2 hv] at h
    exact Bool.false_ne_true h
  · unfold isSameVenue venueTokenGate
    simp only [List.any_cons, List.any_nil, Bool.or_false]
    rw [show str "@" ++ str "fable" = str "@fable" by decide,
      show str "@" ++ str "tokyo fab" = str "@tokyo fab" by decide,
      show str "@" ++ str "cardon" = str "@cardon" by decide,
      show str "@" ++ str "amenity dream" = str "@amenity dream" by decide]
    exact or_rearrange8 _ _ _ _ _ _ _ _

/-- Witness for the amended C5 theorem at a concrete duplicate pair. -/
theorem venue_gate_amended_witness :
    isSameVenue crossVenueEventA crossVenueEventB = true :=
  (venue_gate_amended crossVenueEventA crossVenueEventB).1 (by decide)

end KantoFab
